import Mathlib

/-
Verification development for the MCP language-tools extension
(src/src/extension.ts).

The file shallowly embeds the three stateful cores of the extension:
  * the CallToolRequestSchema handler (find_usages dispatch, argument
    checks, reference collection, preview resolution, response
    envelopes);
  * the Express transport front door (/sse channel establishment with
    queue drain, /message posting with queue-or-dispatch, per-message
    reply bookkeeping);
  * the startServer / stopServer command handlers over the two global
    server handles.

External collaborators (the vscode API, the MCP SDK transport, the JS
JSON serializer) are parameters of the embedding or are modelled by
their observable contract; repository code is translated line by line.
-/

namespace Bifrost

/-- JSON-like values, modelling the untyped `arguments` payload of a
call_tool request as it is inspected by the handler. -/
inductive JVal where
  | str (s : String)
  | num (n : Int)
  | boolean (b : Bool)
  | arr (xs : List JVal)
  | obj (fields : List (String × JVal))
  | null

/-- Property lookup with JS optional-chaining semantics: reading a key
off anything that is not an object yields `undefined` (here `none`). -/
def JVal.get? : JVal → String → Option JVal
  | .obj fields, k => fields.lookup k
  | _, _ => none

/-- JS truthy-object test performed by
`if (!args || typeof args !== 'object')` at extension.ts:180.
`null` is falsy, so only genuine objects and arrays pass. -/
def jsObjectLike : JVal → Bool
  | .obj _ => true
  | .arr _ => true
  | _ => false

/-- Zero-based source position, as in the serialized reference ranges. -/
structure SrcPos where
  line : Nat
  character : Nat
deriving Repr, DecidableEq

/-- Source range; the TS field `end` is a Lean keyword, rendered `stop`. -/
structure SrcRange where
  start : SrcPos
  stop : SrcPos
deriving Repr, DecidableEq

/-- A location returned by the reference provider
(vscode.Location, restricted to the fields the handler reads). -/
structure Location where
  uri : String
  range : SrcRange
deriving Repr, DecidableEq

/-- The response record built per reference at extension.ts:223-236
(type ReferencesAndPreview from ./rosyln). -/
structure ReferencesAndPreview where
  uri : String
  range : SrcRange
  preview : String
deriving Repr, DecidableEq

/-- A parsed vscode.Uri. Uri.parse either throws or returns an object;
the object is never null or otherwise falsy. -/
structure Uri where
  raw : String
deriving Repr, DecidableEq

/-- A returned Uri object is always truthy in JS, so the
`if (!uri)` test at extension.ts:188 never fires. -/
def uriIsFalsy (_ : Uri) : Bool := false

/-- The raw pair handed to `new vscode.Position(...)` at
extension.ts:195-198: the optional-chained lookups of
`position?.line` and `position?.character`, with no validation
performed by the extension (the constructor receives whatever was
supplied, including `undefined`). -/
structure RawPosition where
  line : Option JVal
  character : Option JVal

/-- One item of the protocol content array. -/
structure TextContent where
  type : String
  text : String
deriving Repr, DecidableEq

/-- A call_tool response envelope. `isError := none` models an object
literal that carries no isError field at all (extension.ts:256). -/
structure ToolResponse where
  content : List TextContent
  isError : Option Bool
deriving Repr, DecidableEq

/-- The external vscode surface the handler calls into, as opaque
fallible functions: `Uri.parse` applied to the optional-chained uri
argument (an `.error` models a throw reaching the outer catch); the
`new vscode.Position(line, character)` constructor, which throws the
illegal-argument error on a negative coordinate and otherwise stores
the two raw values it was handed unchanged (`some e` models the throw
with message `e`, `none` a successful construction — the resulting
Position carries exactly the raw payload, which is why the provider
parameter below receives the RawPosition itself);
`executeReferenceProvider` (`.ok none` models a nullish result,
`.ok (some locs)` a location array); and the per-location preview step
`openTextDocument` + `lineAt(...).text.trim()` (an `.error` models a
throw anywhere in that step). -/
structure VsCodeEnv where
  parseUri : Option JVal → Except String Uri
  positionCtor : RawPosition → Option String
  executeReferenceProvider : Uri → RawPosition → Except String (Option (List Location))
  previewLine : Location → Except String String

/-- Helper defined at extension.ts:23-32: resolves a one-line preview
and substitutes the "Preview unavailable" sentinel on failure. It is
declared in the source but never invoked by the reference loop. -/
def getPreviewForReference (env : VsCodeEnv) (ref : Location) : String :=
  match env.previewLine ref with
  | .ok t => t
  | .error _ => "Preview unavailable"

/-- The optional-chained lookup `(args as any).textDocument?.uri`. -/
def textDocumentUri (args : JVal) : Option JVal :=
  (args.get? "textDocument").bind (fun td => td.get? "uri")

/-- The optional-chained lookups feeding the Position constructor. -/
def rawPositionOf (args : JVal) : RawPosition :=
  { line := (args.get? "position").bind (fun p => p.get? "line")
  , character := (args.get? "position").bind (fun p => p.get? "character") }

/-- The reference loop at extension.ts:218-241: per location, attempt
the preview; on success push the record, on failure log and continue —
the failing location is not pushed. -/
def collectReferences (env : VsCodeEnv) : List Location → List ReferencesAndPreview
  | [] => []
  | loc :: rest =>
    match env.previewLine loc with
    | .ok preview =>
        { uri := loc.uri, range := loc.range, preview := preview } :: collectReferences env rest
    | .error _ => collectReferences env rest

/-- Modelled external JSON.stringify string quoting, restricted to the
escapes relevant here (quote and backslash). -/
def jsonString (s : String) : String :=
  "\"" ++ (s.foldl (fun acc c =>
      acc ++ (if c = '"' then "\\\"" else if c = '\\' then "\\\\" else String.singleton c)) "") ++ "\""

/-- JSON serialization of a position record. -/
def jsonOfPos (p : SrcPos) : String :=
  "\x7b\"line\":" ++ toString p.line ++ ",\"character\":" ++ toString p.character ++ "\x7d"

/-- JSON serialization of a range record. -/
def jsonOfRange (r : SrcRange) : String :=
  "\x7b\"start\":" ++ jsonOfPos r.start ++ ",\"end\":" ++ jsonOfPos r.stop ++ "\x7d"

/-- JSON serialization of one reference record, field order as built at
extension.ts:223-236. -/
def jsonOfReference (r : ReferencesAndPreview) : String :=
  "\x7b\"uri\":" ++ jsonString r.uri ++ ",\"range\":" ++ jsonOfRange r.range
    ++ ",\"preview\":" ++ jsonString r.preview ++ "\x7d"

/-- JSON.stringify of the references array (the success payload). -/
def jsonOfReferences (rs : List ReferencesAndPreview) : String :=
  "[" ++ String.intercalate "," (rs.map jsonOfReference) ++ "]"

/-- Envelope returned at extension.ts:181-184. -/
def invalidObjectEnvelope : ToolResponse :=
  { content := [{ type := "text", text := "Invalid arguments: arguments must be an object." }]
  , isError := some true }

/-- Envelope returned at extension.ts:189-192 (unreachable in practice,
see uriIsFalsy). -/
def invalidUriEnvelope : ToolResponse :=
  { content := [{ type := "text", text := "Invalid arguments: textDocument.uri is required." }]
  , isError := some true }

/-- Envelope returned at extension.ts:209-212 when the provider result
is nullish. -/
def noReferencesEnvelope : ToolResponse :=
  { content := [{ type := "text", text := "No references found" }]
  , isError := some false }

/-- Envelope produced by the outer catch at extension.ts:257-263: the
thrown message behind an "Error: " template, isError true. -/
def errorEnvelope (msg : String) : ToolResponse :=
  { content := [{ type := "text", text := "Error: " ++ msg }]
  , isError := some true }

/-- Envelope returned at extension.ts:256: the serialized result with
no isError field in the object literal. -/
def successEnvelope (result : String) : ToolResponse :=
  { content := [{ type := "text", text := result }]
  , isError := none }

/-- Message of the error re-thrown by the inner catch at
extension.ts:246-249 when the provider call itself fails. -/
def providerFailureMessage : String := "Failed to find references"

/-- The find_usages body after the uri has parsed (extension.ts:188-250):
dead falsy-uri check, then the `new vscode.Position(...)` construction
at extension.ts:195-198 — outside the inner try, so a constructor throw
lands in the outer catch — then the inner try around the provider call,
the nullish-result early return, the reference loop, and the rethrow of
the generic provider-failure error (which the outer catch formats). -/
def findUsagesAfterParse (env : VsCodeEnv) (uri : Uri) (pos : RawPosition) : ToolResponse :=
  if uriIsFalsy uri then invalidUriEnvelope
  else
    match env.positionCtor pos with
    | some e => errorEnvelope e
    | none =>
      match env.executeReferenceProvider uri pos with
      | .error _ => errorEnvelope providerFailureMessage
      | .ok none => noReferencesEnvelope
      | .ok (some locations) =>
          successEnvelope (jsonOfReferences (collectReferences env locations))

/-- The CallToolRequestSchema handler, extension.ts:172-264. A throw
from Uri.parse (non-string argument) propagates to the outer catch;
an unknown tool name throws and is likewise formatted by the outer
catch. -/
def callToolHandler (env : VsCodeEnv) (name : String) (args : Option JVal) : ToolResponse :=
  match name with
  | "find_usages" =>
    match args with
    | none => invalidObjectEnvelope
    | some a =>
      if jsObjectLike a then
        match env.parseUri (textDocumentUri a) with
        | .error parseErr => errorEnvelope parseErr
        | .ok uri => findUsagesAfterParse env uri (rawPositionOf a)
      else invalidObjectEnvelope
  | other => errorEnvelope ("Unknown tool: " ++ other)

/-- A message posted to /message, identified by its JSON-RPC id. -/
structure QueuedMessage where
  id : Nat
deriving Repr, DecidableEq

/-- What gets written to a posted message response object: either the
SDK transport completed handlePostMessage (it writes the acceptance),
or the /message catch wrote the 500 JSON-RPC error (extension.ts:335). -/
inductive HttpReply where
  | sdkAccepted
  | serverError (id : Nat)
deriving Repr, DecidableEq

/-- The transport front-door state (extension.ts:272-273) together with
its observable history: `delivered` records each invocation of
`transport.handlePostMessage` in order, `replies` records each reply
written to a posted message response, tagged by message id. -/
structure TransportState where
  transportLive : Bool
  messageQueue : List QueuedMessage
  delivered : List QueuedMessage
  replies : List (Nat × HttpReply)
deriving Repr, DecidableEq

/-- State when startMcpServer has just installed the app. -/
def initialTransportState : TransportState :=
  { transportLive := false, messageQueue := [], delivered := [], replies := [] }

/-- The /message handler, extension.ts:321-344, parameterized by the
outcome of `transport.handlePostMessage` (`true` = it resolves and the
SDK writes the response; `false` = it throws and the catch writes the
500 error). With no transport the message is pushed onto the queue and
the handler returns with nothing written to the response. -/
def postMessage (handleOk : QueuedMessage → Bool) (s : TransportState)
    (m : QueuedMessage) : TransportState :=
  if s.transportLive then
    if handleOk m then
      { s with delivered := s.delivered ++ [m]
             , replies := s.replies ++ [(m.id, HttpReply.sdkAccepted)] }
    else
      { s with delivered := s.delivered ++ [m]
             , replies := s.replies ++ [(m.id, HttpReply.serverError m.id)] }
  else
    { s with messageQueue := s.messageQueue ++ [m] }

/-- The queue drain loop at extension.ts:292-299: shift from the front,
invoke handlePostMessage; a throw is logged and the loop continues, and
nothing is written to that message response. Returns the sequence of
delivered messages and the sequence of replies written. -/
def drainQueue (handleOk : QueuedMessage → Bool) :
    List QueuedMessage → List QueuedMessage × List (Nat × HttpReply)
  | [] => ([], [])
  | m :: rest =>
    if handleOk m then
      (m :: (drainQueue handleOk rest).1,
       (m.id, HttpReply.sdkAccepted) :: (drainQueue handleOk rest).2)
    else
      (m :: (drainQueue handleOk rest).1, (drainQueue handleOk rest).2)

/-- The /sse handler, extension.ts:276-304: installs the transport and
immediately drains the pending queue in FIFO order. -/
def sseConnect (handleOk : QueuedMessage → Bool) (s : TransportState) : TransportState :=
  { transportLive := true
  , messageQueue := []
  , delivered := s.delivered ++ (drainQueue handleOk s.messageQueue).1
  , replies := s.replies ++ (drainQueue handleOk s.messageQueue).2 }

/-- The connection-close callback, extension.ts:307-313: the transport
reference is cleared; the queue is untouched. -/
def sseClose (s : TransportState) : TransportState :=
  { s with transportLive := false }

/-- Front-door events in arrival order. -/
inductive TransportEvent where
  | post (m : QueuedMessage)
  | connect
  | close
deriving Repr, DecidableEq

/-- One event step of the front door. -/
def stepTransport (handleOk : QueuedMessage → Bool) (s : TransportState) :
    TransportEvent → TransportState
  | .post m => postMessage handleOk s m
  | .connect => sseConnect handleOk s
  | .close => sseClose s

/-- Run a sequence of front-door events from the initial state. -/
def runTransport (handleOk : QueuedMessage → Bool)
    (events : List TransportEvent) : TransportState :=
  events.foldl (stepTransport handleOk) initialTransportState

/-- All replies ever written to the response of message id `i`. -/
def repliesFor (s : TransportState) (i : Nat) : List HttpReply :=
  (s.replies.filter (fun p => p.1 = i)).map Prod.snd

/-- A user-visible notification. -/
inductive Notice where
  | info (text : String)
  | error (text : String)
deriving Repr, DecidableEq

/-- The two module-level handles (extension.ts:19-21), with the bound
port standing for the live http server handle. -/
structure LifecycleState where
  mcpServer : Option Nat
  httpServer : Option Nat
deriving Repr, DecidableEq

/-- Observable outcome of one lifecycle command: resulting state, the
notifications shown, how many listeners were bound and how many close
calls were performed. -/
structure CommandOutcome where
  state : LifecycleState
  notices : List Notice
  listenersCreated : Nat
  closesPerformed : Nat
deriving Repr, DecidableEq

/-- The langmcpserver.startServer command, extension.ts:58-70: if the
http server handle exists, show the already-running message and return;
otherwise startMcpServer binds one listener and installs both handles
(`newPort` is the port it reports). -/
def startServerCommand (s : LifecycleState) (newPort : Nat) : CommandOutcome :=
  match s.httpServer with
  | some port =>
      { state := s
      , notices := [.info ("MCP server is already running on port " ++ toString port)]
      , listenersCreated := 0
      , closesPerformed := 0 }
  | none =>
      { state := { mcpServer := some newPort, httpServer := some newPort }
      , notices := [.info ("MCP server started on port " ++ toString newPort)]
      , listenersCreated := 1
      , closesPerformed := 0 }

/-- The langmcpserver.stopServer command, extension.ts:71-88: when
neither handle exists, show the not-running message and return;
otherwise close whichever handles exist and clear both. -/
def stopServerCommand (s : LifecycleState) : CommandOutcome :=
  if s.httpServer.isNone && s.mcpServer.isNone then
    { state := s
    , notices := [.info "No MCP server is currently running"]
    , listenersCreated := 0
    , closesPerformed := 0 }
  else
    { state := { mcpServer := none, httpServer := none }
    , notices := [.info "MCP server stopped"]
    , listenersCreated := 0
    , closesPerformed :=
        (if s.mcpServer.isSome then 1 else 0) + (if s.httpServer.isSome then 1 else 0) }

mutual

/-- Modelled JS ToString coercion, as applied by RegExp.exec inside
vscode.Uri.parse when handed a non-string value: primitives render the
usual way, a plain object renders "[object Object]", and an array
renders as its default join. -/
def jsToString : JVal → String
  | .str s => s
  | .num n => toString n
  | .boolean b => if b then "true" else "false"
  | .null => "null"
  | .obj _ => "[object Object]"
  | .arr xs => jsJoin xs
termination_by v => sizeOf v

/-- Array.prototype.join with the default separator, as used by the
ToString coercion of an array: null elements render empty. -/
def jsJoin : List JVal → String
  | [] => ""
  | [.null] => ""
  | [v] => jsToString v
  | .null :: rest => "," ++ jsJoin rest
  | v :: rest => jsToString v ++ "," ++ jsJoin rest
termination_by xs => sizeOf xs

end

/-- Modelled external behavior of vscode.Uri.parse: the parser runs an
all-optional RegExp against the ToString coercion of its argument, so
it matches every input — a missing uri coerces to the string
"undefined" — and non-strict parsing maps the resulting empty scheme to
file; parse therefore never throws and always returns a truthy Uri. -/
def vscodeUriParse : Option JVal → Except String Uri
  | none => .ok { raw := "undefined" }
  | some (.str s) => .ok { raw := s }
  | some v => .ok { raw := jsToString v }

/-- Instantiation of the `new vscode.Position(line, character)` checks
for the payloads the concrete scenarios below supply (numeric or absent
coordinates): a negative numeric line, or else a negative numeric
character, throws the illegal-argument error in that order; everything
else constructs, storing the raw values as given. (The real constructor
compares after JS coercion, so payloads outside the numeric-or-absent
range — which no scenario supplies — may also throw.) -/
def vscodePositionCtor : RawPosition → Option String :=
  fun p =>
    match p.line with
    | some (.num n) =>
        if n < 0 then some "Illegal argument: line must be non-negative"
        else
          match p.character with
          | some (.num c) =>
              if c < 0 then some "Illegal argument: character must be non-negative" else none
          | _ => none
    | _ =>
        match p.character with
        | some (.num c) =>
            if c < 0 then some "Illegal argument: character must be non-negative" else none
        | _ => none

/-- First provider location used in the scenarios. -/
def loc1 : Location :=
  { uri := "file:///b.ts"
  , range := { start := { line := 3, character := 4 }, stop := { line := 3, character := 9 } } }

/-- Second provider location used in the scenarios. -/
def loc2 : Location :=
  { uri := "file:///b.ts"
  , range := { start := { line := 7, character := 2 }, stop := { line := 7, character := 7 } } }

/-- Well-formed find_usages arguments. -/
def argsOk : JVal :=
  .obj [("textDocument", .obj [("uri", .str "file:///a.ts")]),
        ("position", .obj [("line", .num 0), ("character", .num 0)])]

/-- find_usages arguments with no position member at all. -/
def argsNoPos : JVal := .obj [("textDocument", .obj [("uri", .str "file:///a.ts")])]

/-- find_usages arguments with a present, numeric, negative
position.line. -/
def argsNegLine : JVal :=
  .obj [("textDocument", .obj [("uri", .str "file:///a.ts")]),
        ("position", .obj [("line", .num (-1)), ("character", .num 0)])]

/-- Environment whose provider returns an empty location array. -/
def envEmptyList : VsCodeEnv :=
  { parseUri := vscodeUriParse
  , positionCtor := vscodePositionCtor
  , executeReferenceProvider := fun _ _ => .ok (some [])
  , previewLine := fun _ => .ok "" }

/-- Environment whose provider returns a nullish result. -/
def envProviderNull : VsCodeEnv :=
  { parseUri := vscodeUriParse
  , positionCtor := vscodePositionCtor
  , executeReferenceProvider := fun _ _ => .ok none
  , previewLine := fun _ => .ok "" }

/-- Environment with two locations where the preview step throws for
the first location and succeeds for the second. -/
def envPreviewFail : VsCodeEnv :=
  { parseUri := vscodeUriParse
  , positionCtor := vscodePositionCtor
  , executeReferenceProvider := fun _ _ => .ok (some [loc1, loc2])
  , previewLine := fun l => if l = loc1 then .error "ENOENT" else .ok "const x = 1;" }

/-- Environment whose provider call throws. -/
def envProviderFail : VsCodeEnv :=
  { parseUri := vscodeUriParse
  , positionCtor := vscodePositionCtor
  , executeReferenceProvider := fun _ _ => .error "socket disconnected"
  , previewLine := fun _ => .ok "" }

/-- Environment with one location and a working preview. -/
def envOneRef : VsCodeEnv :=
  { parseUri := vscodeUriParse
  , positionCtor := vscodePositionCtor
  , executeReferenceProvider := fun _ _ => .ok (some [loc1])
  , previewLine := fun _ => .ok "const x = 1;" }

/-- Serializing an empty reference list gives the empty JSON array. -/
theorem jsonOfReferences_nil : jsonOfReferences [] = "[]" := rfl

/-- The drain loop hands every queued message to the transport, in
queue order, whatever the per-message outcomes are. -/
theorem drainQueue_fst (h : QueuedMessage → Bool) (q : List QueuedMessage) :
    (drainQueue h q).1 = q := by
  induction q with
  | nil => rfl
  | cons m rest ih =>
    by_cases hm : h m <;> simp [drainQueue, hm, ih]

/-- The drain loop writes one acceptance reply per successfully
replayed message and nothing for a failed replay. -/
theorem drainQueue_snd (h : QueuedMessage → Bool) (q : List QueuedMessage) :
    (drainQueue h q).2 = (q.filter h).map (fun m => (m.id, HttpReply.sdkAccepted)) := by
  induction q with
  | nil => rfl
  | cons m rest ih =>
    by_cases hm : h m <;> simp [drainQueue, hm, ih, List.filter]

/-- Posting a batch of messages while no transport is live appends them
to the queue in arrival order and changes nothing else. -/
theorem foldl_posts (h : QueuedMessage → Bool) (msgs : List QueuedMessage) :
    ∀ s : TransportState, s.transportLive = false →
      (msgs.map TransportEvent.post).foldl (stepTransport h) s =
        { s with messageQueue := s.messageQueue ++ msgs } := by
  induction msgs with
  | nil => intro s _; simp
  | cons m rest ih =>
    intro s hs
    have hstep : stepTransport h s (TransportEvent.post m) =
        { s with messageQueue := s.messageQueue ++ [m] } := by
      simp [stepTransport, postMessage, hs]
    simp only [List.map_cons, List.foldl_cons, hstep]
    rw [ih { s with messageQueue := s.messageQueue ++ [m] } (by simp [hs])]
    simp

/-- C1: the spec (and the tool description in the source, which
promises a list of all reference locations) requires a location whose
preview fails to stay in the result carrying the "Preview unavailable"
sentinel. The code evaluated at the failing input — two provider
locations, preview throwing for the first — returns only one entry:
the failing location is dropped and the sentinel never appears, even
though the helper getPreviewForReference, which produces exactly that
sentinel, is defined in the source; it is just never called by the
reference loop. -/
theorem C1_preview_failure_drops_location :
    collectReferences envPreviewFail [loc1, loc2] =
      [{ uri := loc2.uri, range := loc2.range, preview := "const x = 1;" }]
  ∧ (collectReferences envPreviewFail [loc1, loc2]).length = 1
  ∧ callToolHandler envPreviewFail "find_usages" (some argsOk) =
      successEnvelope
        (jsonOfReferences [{ uri := loc2.uri, range := loc2.range, preview := "const x = 1;" }])
  ∧ getPreviewForReference envPreviewFail loc1 = "Preview unavailable" := by
  refine ⟨rfl, rfl, rfl, rfl⟩

/-- C2 counterexample: a provider returning zero locations as an empty
array is serialized to "[]" with no isError field — not the explicit
"No references found" payload with isError false that the claim
requires for every zero-location result. -/
theorem C2_counterexample :
    callToolHandler envEmptyList "find_usages" (some argsOk) = successEnvelope "[]"
  ∧ callToolHandler envEmptyList "find_usages" (some argsOk) ≠ noReferencesEnvelope
  ∧ (callToolHandler envEmptyList "find_usages" (some argsOk)).isError ≠ some false := by
  refine ⟨rfl, by decide, by decide⟩

/-- C2 (amended): only a nullish provider result produces the explicit
"No references found" payload with isError false; a provider returning
an empty location array instead yields the serialized empty list "[]"
in an envelope that carries no isError field. -/
theorem C2_empty_result_handling (env env2 : VsCodeEnv) (a : JVal) (u : Uri)
    (ha : jsObjectLike a = true)
    (hu : env.parseUri (textDocumentUri a) = .ok u)
    (hctor : env.positionCtor (rawPositionOf a) = none)
    (hnone : env.executeReferenceProvider u (rawPositionOf a) = .ok none)
    (hu2 : env2.parseUri (textDocumentUri a) = .ok u)
    (hctor2 : env2.positionCtor (rawPositionOf a) = none)
    (hempty : env2.executeReferenceProvider u (rawPositionOf a) = .ok (some [])) :
    callToolHandler env "find_usages" (some a) = noReferencesEnvelope
  ∧ callToolHandler env2 "find_usages" (some a) = successEnvelope "[]" := by
  constructor
  · simp [callToolHandler, ha, hu, findUsagesAfterParse, uriIsFalsy, hctor, hnone]
  · simp [callToolHandler, ha, hu2, findUsagesAfterParse, uriIsFalsy, hctor2, hempty,
      collectReferences, jsonOfReferences_nil]

/-- C2 witness: the amended statement at concrete environments. -/
theorem C2_witness :
    callToolHandler envProviderNull "find_usages" (some argsOk) = noReferencesEnvelope
  ∧ callToolHandler envEmptyList "find_usages" (some argsOk) = successEnvelope "[]" :=
  C2_empty_result_handling envProviderNull envEmptyList argsOk { raw := "file:///a.ts" }
    rfl rfl rfl rfl rfl rfl rfl

/-- C3 counterexample: a POST arriving while no channel is live is
pushed onto the queue and the handler returns with nothing written to
its response — no provisional acknowledgment of any kind, contrary to
the claim that the server responds with a queued acknowledgment. -/
theorem C3_counterexample :
    (postMessage (fun _ => true) initialTransportState { id := 1 }).messageQueue = [{ id := 1 }]
  ∧ (postMessage (fun _ => true) initialTransportState { id := 1 }).replies = []
  ∧ repliesFor (postMessage (fun _ => true) initialTransportState { id := 1 }) 1 = [] := by
  refine ⟨rfl, rfl, rfl⟩

/-- C3 (amended): a POST to the message endpoint while no streaming
channel is live is queued, not rejected — but it is also not answered:
the handler appends the message to the pending queue and returns
without writing any response, deferring the reply until a channel goes
live and the queued message is replayed. -/
theorem C3_queued_without_reply (h : QueuedMessage → Bool) (s : TransportState)
    (m : QueuedMessage) (hnl : s.transportLive = false) :
    postMessage h s m = { s with messageQueue := s.messageQueue ++ [m] } := by
  simp [postMessage, hnl]

/-- C3 witness: the amended statement at a concrete state. -/
theorem C3_witness :
    postMessage (fun _ => true) initialTransportState { id := 1 } =
      { initialTransportState with
          messageQueue := initialTransportState.messageQueue ++ [{ id := 1 }] } :=
  C3_queued_without_reply (fun _ => true) initialTransportState { id := 1 } rfl

/-- C4: the pending queue grows, in arrival order, only while no
channel is live (a post with a live transport leaves the queue
untouched); when the channel connects, the queue is drained completely
— it ends empty — and every queued message is handed to the dispatcher
exactly once, in FIFO order, whatever the per-message replay outcomes
are (a failed replay is logged and does not stop the rest). -/
theorem C4_fifo_drain (h : QueuedMessage → Bool) (msgs : List QueuedMessage)
    (s : TransportState) (m : QueuedMessage) (hlive : s.transportLive = true) :
    (runTransport h (msgs.map TransportEvent.post)).messageQueue = msgs
  ∧ (runTransport h (msgs.map TransportEvent.post)).delivered = []
  ∧ (runTransport h (msgs.map TransportEvent.post ++ [TransportEvent.connect])).messageQueue = []
  ∧ (runTransport h (msgs.map TransportEvent.post ++ [TransportEvent.connect])).delivered = msgs
  ∧ (postMessage h s m).messageQueue = s.messageQueue := by
  have hrun : runTransport h (msgs.map TransportEvent.post) =
      { initialTransportState with messageQueue := msgs } := by
    rw [runTransport, foldl_posts h msgs initialTransportState rfl]
    simp [initialTransportState]
  refine ⟨by rw [hrun], by rw [hrun]; rfl, ?_, ?_, ?_⟩
  · rw [runTransport, List.foldl_append, ← runTransport, hrun]
    rfl
  · rw [runTransport, List.foldl_append, ← runTransport, hrun]
    simp [stepTransport, sseConnect, drainQueue_fst, initialTransportState]
  · by_cases hm : h m <;> simp [postMessage, hlive, hm]

/-- C4 witness: two messages queued before the channel exists are both
delivered, in order, even when every replay fails. -/
theorem C4_witness :
    (runTransport (fun _ => false)
        (([{ id := 1 }, { id := 2 }] : List QueuedMessage).map TransportEvent.post
          ++ [TransportEvent.connect])).delivered =
      [{ id := 1 }, { id := 2 }] :=
  (C4_fifo_drain (fun _ => false) [{ id := 1 }, { id := 2 }]
    { transportLive := true, messageQueue := [], delivered := [], replies := [] }
    { id := 3 } rfl).2.2.2.1

/-- C6 counterexample: a message queued before any channel exists and
whose replay fails once the channel connects is handed to the transport
(it is consumed) but its caller never receives a response — the drain
catch only logs, refuting the claim that no caller is left without a
response envelope. -/
theorem C6_counterexample :
    (runTransport (fun _ => false)
        [TransportEvent.post { id := 1 }, TransportEvent.connect]).delivered = [{ id := 1 }]
  ∧ repliesFor
      (runTransport (fun _ => false)
        [TransportEvent.post { id := 1 }, TransportEvent.connect]) 1 = [] := by
  refine ⟨rfl, rfl⟩

/-- C6 (amended): a message posted while the channel is live receives
exactly one reply — the SDK acceptance on success, the 500 JSON-RPC
error on dispatch failure; a message posted while no channel is live
receives no reply at queueing time; and on a connect, each queued
message whose replay succeeds receives exactly one acceptance reply
while a queued message whose replay fails receives none at all (the
failure is only logged), leaving that caller without a response. -/
theorem C6_reply_accounting (h : QueuedMessage → Bool) (s : TransportState)
    (m : QueuedMessage) (msgs : List QueuedMessage) (hlive : s.transportLive = true) :
    (postMessage h s m).replies =
        s.replies ++ [(m.id, if h m then HttpReply.sdkAccepted else HttpReply.serverError m.id)]
  ∧ (postMessage h (sseClose s) m).replies = s.replies
  ∧ (sseConnect h { initialTransportState with messageQueue := msgs }).replies =
        (msgs.filter h).map (fun q => (q.id, HttpReply.sdkAccepted)) := by
  refine ⟨?_, ?_, ?_⟩
  · by_cases hm : h m <;> simp [postMessage, hlive, hm]
  · simp [postMessage, sseClose]
  · simp [sseConnect, drainQueue_snd, initialTransportState]

/-- C6 witness: the amended statement at a concrete live state, a
message whose dispatch fails, and a queue of two messages. -/
theorem C6_witness :
    (postMessage (fun _ => false)
        { transportLive := true, messageQueue := [], delivered := [], replies := [] }
        { id := 7 }).replies =
      ([] : List (Nat × HttpReply)) ++ [(7, if (fun (_ : QueuedMessage) => false) { id := 7 }
          then HttpReply.sdkAccepted else HttpReply.serverError 7)] :=
  (C6_reply_accounting (fun _ => false)
    { transportLive := true, messageQueue := [], delivered := [], replies := [] }
    { id := 7 } [{ id := 1 }, { id := 2 }] rfl).1

/-- Every result of the call-tool handler is one of its five envelope
shapes. -/
theorem callToolHandler_cases (env : VsCodeEnv) (name : String) (args : Option JVal) :
    (∃ msg, callToolHandler env name args = errorEnvelope msg)
  ∨ callToolHandler env name args = invalidObjectEnvelope
  ∨ callToolHandler env name args = invalidUriEnvelope
  ∨ callToolHandler env name args = noReferencesEnvelope
  ∨ (∃ rs, callToolHandler env name args = successEnvelope (jsonOfReferences rs)) := by
  unfold callToolHandler
  split
  · cases args with
    | none => exact Or.inr (Or.inl rfl)
    | some a =>
      by_cases ha : jsObjectLike a
      · simp only [ha, if_true]
        cases hpu : env.parseUri (textDocumentUri a) with
        | error e => exact Or.inl ⟨e, rfl⟩
        | ok u =>
          unfold findUsagesAfterParse
          simp only [uriIsFalsy, Bool.false_eq_true, if_false]
          cases hpc : env.positionCtor (rawPositionOf a) with
          | some e => exact Or.inl ⟨e, rfl⟩
          | none =>
            cases hpr : env.executeReferenceProvider u (rawPositionOf a) with
            | error e => exact Or.inl ⟨providerFailureMessage, rfl⟩
            | ok oloc =>
              cases oloc with
              | none => exact Or.inr (Or.inr (Or.inr (Or.inl rfl)))
              | some locs =>
                exact Or.inr (Or.inr (Or.inr (Or.inr ⟨collectReferences env locs, rfl⟩)))
      · simp only [ha]
        exact Or.inr (Or.inl rfl)
  · exact Or.inl ⟨_, rfl⟩

/-- C7 counterexample: the successful serialized-references path
returns an envelope with no isError field at all, so not every
response carries an isError boolean. -/
theorem C7_counterexample :
    (callToolHandler envOneRef "find_usages" (some argsOk)).isError = none := by
  rfl

/-- C7 (amended): every call-tool response is a single text-content
envelope; an envelope carrying isError false is exactly the explicit
no-references payload, and an envelope carrying no isError field at all
is exactly the successful serialized-references payload — every other
path (all error paths) sets isError true. -/
theorem C7_envelope_shape (env : VsCodeEnv) (name : String) (args : Option JVal) :
    (∃ t, (callToolHandler env name args).content = [{ type := "text", text := t }])
  ∧ ((callToolHandler env name args).isError = some false →
       callToolHandler env name args = noReferencesEnvelope)
  ∧ ((callToolHandler env name args).isError = none →
       ∃ rs, callToolHandler env name args = successEnvelope (jsonOfReferences rs))
  ∧ ((callToolHandler env name args).isError ≠ some false →
       (callToolHandler env name args).isError ≠ none →
       (callToolHandler env name args).isError = some true) := by
  rcases callToolHandler_cases env name args with
    ⟨msg, hc⟩ | hc | hc | hc | ⟨rs, hc⟩ <;>
    rw [hc] <;>
    refine ⟨⟨_, rfl⟩, ?_, ?_, ?_⟩ <;>
    intro h1 <;>
    first
      | rfl
      | exact ⟨rs, rfl⟩
      | simp [errorEnvelope, invalidObjectEnvelope, invalidUriEnvelope,
          noReferencesEnvelope, successEnvelope] at h1 ⊢

/-- C7 witness: the amended statement at a nullish-provider invocation,
whose isError is false and whose envelope is the no-references one. -/
theorem C7_witness :
    (∃ t, (callToolHandler envProviderNull "find_usages" (some argsOk)).content =
      [{ type := "text", text := t }])
  ∧ callToolHandler envProviderNull "find_usages" (some argsOk) = noReferencesEnvelope :=
  ⟨(C7_envelope_shape envProviderNull "find_usages" (some argsOk)).1,
   (C7_envelope_shape envProviderNull "find_usages" (some argsOk)).2.1 rfl⟩

/-- C8 counterexample: when the provider call itself fails, the text
returned to the caller is "Error: Failed to find references" — the
generic message behind the outer-catch template — and not exactly the
bare "Failed to find references" the claim states. -/
theorem C8_counterexample :
    callToolHandler envProviderFail "find_usages" (some argsOk) =
      errorEnvelope "Failed to find references"
  ∧ (callToolHandler envProviderFail "find_usages" (some argsOk)).content ≠
      [{ type := "text", text := "Failed to find references" }] := by
  refine ⟨rfl, by decide⟩

/-- C8 (amended): when the provider call itself fails, the whole
invocation fails with isError true and text exactly
"Error: Failed to find references" — the generic failure message behind
the "Error: " template — independently of the underlying cause, which
therefore never reaches the caller. -/
theorem C8_provider_failure_generic (env : VsCodeEnv) (a : JVal) (u : Uri) (cause : String)
    (ha : jsObjectLike a = true)
    (hu : env.parseUri (textDocumentUri a) = .ok u)
    (hctor : env.positionCtor (rawPositionOf a) = none)
    (hfail : env.executeReferenceProvider u (rawPositionOf a) = .error cause) :
    callToolHandler env "find_usages" (some a) =
      { content := [{ type := "text", text := "Error: Failed to find references" }]
      , isError := some true } := by
  have h1 : callToolHandler env "find_usages" (some a) = errorEnvelope providerFailureMessage := by
    simp [callToolHandler, ha, hu, findUsagesAfterParse, uriIsFalsy, hctor, hfail]
  rw [h1]
  rfl

/-- C8 witness: the amended statement at a concrete failing provider. -/
theorem C8_witness :
    callToolHandler envProviderFail "find_usages" (some argsOk) =
      { content := [{ type := "text", text := "Error: Failed to find references" }]
      , isError := some true } :=
  C8_provider_failure_generic envProviderFail argsOk { raw := "file:///a.ts" }
    "socket disconnected" rfl rfl rfl rfl

/-- Stopping always leaves both handles cleared, from any state. -/
theorem stopServerCommand_state (s : LifecycleState) :
    (stopServerCommand s).state = { mcpServer := none, httpServer := none } := by
  unfold stopServerCommand
  split
  · rename_i hcond
    simp only [Bool.and_eq_true, Option.isNone_iff_eq_none] at hcond
    cases s
    simp_all
  · rfl

/-- C9: stopping twice in a row (from any state) ends in the no-op
branch — state unchanged at cleared, an informational notice, no close
calls; stopping when nothing runs is the same no-op; and a start while
the http handle exists is rejected with the already-running
informational notice, binds no second listener, and has no other
observable effect (state unchanged, nothing closed). -/
theorem C9_lifecycle_idempotence (s : LifecycleState) (p newPort : Nat)
    (hrun : s.httpServer = some p) :
    (stopServerCommand (stopServerCommand s).state).state =
        { mcpServer := none, httpServer := none }
  ∧ (stopServerCommand (stopServerCommand s).state).notices =
        [Notice.info "No MCP server is currently running"]
  ∧ (stopServerCommand (stopServerCommand s).state).closesPerformed = 0
  ∧ stopServerCommand { mcpServer := none, httpServer := none } =
      { state := { mcpServer := none, httpServer := none }
      , notices := [Notice.info "No MCP server is currently running"]
      , listenersCreated := 0
      , closesPerformed := 0 }
  ∧ (startServerCommand s newPort).state = s
  ∧ (startServerCommand s newPort).listenersCreated = 0
  ∧ (startServerCommand s newPort).notices =
      [Notice.info ("MCP server is already running on port " ++ toString p)]
  ∧ (startServerCommand s newPort).closesPerformed = 0 := by
  rw [stopServerCommand_state s]
  refine ⟨rfl, rfl, rfl, rfl, ?_, ?_, ?_, ?_⟩ <;>
    simp [startServerCommand, hrun]

/-- C9 witness: the statement at a concretely running server. -/
theorem C9_witness :
    (startServerCommand { mcpServer := some 8008, httpServer := some 8008 } 9001).listenersCreated = 0
  ∧ (stopServerCommand
      (stopServerCommand { mcpServer := some 8008, httpServer := some 8008 }).state).closesPerformed = 0 :=
  ⟨(C9_lifecycle_idempotence { mcpServer := some 8008, httpServer := some 8008 }
      8008 9001 rfl).2.2.2.2.2.1,
   (C9_lifecycle_idempotence { mcpServer := some 8008, httpServer := some 8008 }
      8008 9001 rfl).2.2.1⟩

/-- C10 counterexample: an invocation with a parseable uri and a
present, numeric position.line of -1 does not reach the provider with
the supplied values — the vscode.Position constructor at
extension.ts:195, which sits outside the inner try, throws the
illegal-argument error, and the outer catch returns an isError=true
envelope naming the position coordinate; had the provider been reached,
this environment would have produced its serialized one-reference
success payload, and it did not. -/
theorem C10_counterexample :
    callToolHandler envOneRef "find_usages" (some argsNegLine) =
      errorEnvelope "Illegal argument: line must be non-negative"
  ∧ (callToolHandler envOneRef "find_usages" (some argsNegLine)).isError = some true
  ∧ callToolHandler envOneRef "find_usages" (some argsNegLine) ≠
      successEnvelope (jsonOfReferences (collectReferences envOneRef [loc1])) := by
  refine ⟨rfl, rfl, by decide⟩

/-- C10 (amended): the extension itself performs no validation of
position.line or position.character — the raw optional-chained values
go straight into the vscode.Position constructor; when that constructor
accepts (as it does for absent or non-negative payloads), the
invocation reaches the provider with exactly the raw values that were
supplied and no error mentioning the position is produced; when the
constructor throws (negative coordinates), the throw lands in the outer
catch, yielding an isError=true envelope carrying the constructor
message, and the provider is never called — the result is the same
whatever provider and preview functions are installed. -/
theorem C10_position_unvalidated (env : VsCodeEnv) (a : JVal) (u : Uri) (e : String)
    (ha : jsObjectLike a = true)
    (hu : env.parseUri (textDocumentUri a) = .ok u) :
    (env.positionCtor (rawPositionOf a) = none →
      callToolHandler env "find_usages" (some a) =
        (match env.executeReferenceProvider u (rawPositionOf a) with
         | .error _ => errorEnvelope providerFailureMessage
         | .ok none => noReferencesEnvelope
         | .ok (some locs) => successEnvelope (jsonOfReferences (collectReferences env locs))))
  ∧ (env.positionCtor (rawPositionOf a) = some e →
      callToolHandler env "find_usages" (some a) = errorEnvelope e
      ∧ ∀ prov prev,
          callToolHandler { env with executeReferenceProvider := prov, previewLine := prev }
            "find_usages" (some a) = errorEnvelope e) := by
  constructor
  · intro hctor
    simp [callToolHandler, ha, hu, findUsagesAfterParse, uriIsFalsy, hctor]
  · intro hctor
    constructor
    · simp [callToolHandler, ha, hu, findUsagesAfterParse, uriIsFalsy, hctor]
    · intro prov prev
      simp [callToolHandler, ha, hu, findUsagesAfterParse, uriIsFalsy, hctor]

/-- C10 witness: with no position member the invocation passes the raw
all-absent payload through to the provider and succeeds; with the
negative numeric line it fails with the constructor message. -/
theorem C10_witness :
    callToolHandler envOneRef "find_usages" (some argsNoPos) =
      successEnvelope (jsonOfReferences (collectReferences envOneRef [loc1]))
  ∧ callToolHandler envOneRef "find_usages" (some argsNegLine) =
      errorEnvelope "Illegal argument: line must be non-negative" :=
  ⟨(C10_position_unvalidated envOneRef argsNoPos { raw := "file:///a.ts" } "x" rfl rfl).1 rfl,
   ((C10_position_unvalidated envOneRef argsNegLine { raw := "file:///a.ts" }
      "Illegal argument: line must be non-negative" rfl rfl).2 rfl).1⟩

end Bifrost
